import Mathlib

/-!
Shallow embedding of the COMICS_LOUNGE order-webhook service (src/index.js,
the MongoDB-backed variant). The service receives order-creation webhooks,
checks line items for qualifying product ids, generates a unique prefixed
code, notifies a partner API, persists the code in the `codes` collection,
and annotates the order with a note via a GraphQL mutation.

External collaborators (the HTTP stack, the MongoDB driver, `crypto`) are
modelled by explicit outcome values: each outbound call's observable result
is an input to the embedded function, and the embedded function reproduces
the source's decision logic on that result. Randomness (`Math.random()`)
is modelled by a list of natural-number seeds; each seed yields the draw
`Math.floor(10000000 + Math.random() * 90000000)`, whose range over
`r ∈ [0, 1)` is exactly `[10000000, 99999999]`.
-/

namespace ComicsLounge

/-- A document of the `codes` collection: `{ orderId, code }`
(src/index.js line 574). -/
structure CodeRecord where
  orderId : String
  code : String
deriving DecidableEq, Repr

/-- The `codes` collection, in insertion order. -/
abbrev CodeStore := List CodeRecord

/-- The store's `findOne({ code })` lookup (src/index.js line 434). -/
def findOne (store : CodeStore) (c : String) : Option CodeRecord :=
  store.find? (fun r => r.code = c)

/-- The store's `insertOne({ orderId, code })` (src/index.js line 574). -/
def insertOne (store : CodeStore) (r : CodeRecord) : CodeStore :=
  store ++ [r]

/-- `getCodePrefix` (src/index.js lines 416-425): the static map from
qualifying product id to code letter; `null` (here `none`) otherwise. -/
def getCodePrefix (productId : String) : Option String :=
  if productId = "9805574340930" then some "A"
  else if productId = "9845248131394" then some "B"
  else none

/-- One draw of `Math.floor(10000000 + Math.random() * 90000000)`
(src/index.js line 433), indexed by a seed; its image is exactly the
integer range `[10000000, 99999999]`. -/
def randomDraw (seed : Nat) : Nat :=
  10000000 + seed % 90000000

/-- `generateUniqueCode` (src/index.js lines 428-441): draw a code, check
the store with `findOne`, repeat on collision, return the first unused
code. The seed list supplies the successive random draws; `none` models
the loop running beyond the supplied draws (nontermination). -/
def generateUniqueCode (store : CodeStore) (pfx : String) : List Nat → Option String
  | [] => none
  | seed :: rest =>
    match findOne store (pfx ++ toString (randomDraw seed)) with
    | some _ => generateUniqueCode store pfx rest
    | none => some (pfx ++ toString (randomDraw seed))

/-! GraphQL annotation (`updateOrderWithNote`, src/index.js lines 444-505).
The response is modelled after the optional chain
`response.data?.orderUpdate?.order?.note` that the source inspects. -/

/-- The `order { id note }` object of the mutation response; either field
may be absent or `null`. -/
structure OrderField where
  id : Option String
  note : Option String
deriving DecidableEq, Repr

/-- The `orderUpdate` object of the mutation response. -/
structure OrderUpdateField where
  order : Option OrderField
deriving DecidableEq, Repr

/-- The `data` object of the mutation response. -/
structure GraphQLData where
  orderUpdate : Option OrderUpdateField
deriving DecidableEq, Repr

/-- A parsed GraphQL mutation response. -/
structure GraphQLResponse where
  data : Option GraphQLData
deriving DecidableEq, Repr

/-- Observable outcome of the HTTPS exchange in `updateOrderWithNote`:
the request errored (`req.on error`), the body failed `JSON.parse`, or a
response body parsed to a `GraphQLResponse`. -/
inductive HttpEvent where
  | transportError
  | parseError
  | response (r : GraphQLResponse)
deriving DecidableEq, Repr

/-- The nested note field `data.orderUpdate.order.note` of a response. -/
def noteField (r : GraphQLResponse) : Option String :=
  (((r.data).bind GraphQLData.orderUpdate).bind OrderUpdateField.order).bind
    OrderField.note

/-- `updateOrderWithNote` (src/index.js lines 476-500): rejects on request
error or parse error; resolves with `response.data.orderUpdate` exactly
when the chain `response.data?.orderUpdate?.order?.note` is truthy, which
for a string means present and non-empty; rejects with
`Failed to update order note` otherwise. -/
def updateOrderWithNote (ev : HttpEvent) : Except String OrderUpdateField :=
  match ev with
  | .transportError => .error "request error"
  | .parseError => .error "parse error"
  | .response r =>
    match r.data with
    | none => .error "Failed to update order note"
    | some d =>
      match d.orderUpdate with
      | none => .error "Failed to update order note"
      | some u =>
        match u.order with
        | none => .error "Failed to update order note"
        | some o =>
          match o.note with
          | none => .error "Failed to update order note"
          | some s =>
            if s = "" then .error "Failed to update order note" else .ok u

/-- Observable outcome of the HTTPS exchange in `sendCodeToComicsLounge`:
either a connection-level request error, or a response with some status
code and accumulated body. -/
inductive PartnerEvent where
  | requestError
  | response (status : Nat) (body : String)
deriving DecidableEq, Repr

/-- `sendCodeToComicsLounge` (src/index.js lines 508-549): resolves with
the accumulated body on any received response (the status code is never
inspected), rejects only on a request error. -/
def sendCodeToComicsLounge (ev : PartnerEvent) : Except String String :=
  match ev with
  | .requestError => .error "request error"
  | .response _ body => .ok body

/-! Signature verification (`verifyShopifyWebhook`, src/index.js
lines 393-413). `crypto.createHmac('sha256', secret).update(body)
.digest('base64')` is an external primitive, modelled as an abstract
function `hmac : secret → body → base64 digest`. -/

/-- The parts of the request that `verifyShopifyWebhook` reads: the
`x-shopify-hmac-sha256` header and the raw body (`none` = absent). -/
structure WebhookRequest where
  hmacHeader : Option String
  body : Option String
deriving DecidableEq, Repr

/-- `verifyShopifyWebhook` (src/index.js lines 393-413): returns `false`
when the header or the body is missing (an empty header string is falsy in
the source's `!hmacHeader` test), otherwise compares the header to the
base64 HMAC-SHA256 of the raw body under the shared secret. -/
def verifyShopifyWebhook (hmac : String → String → String) (secret : String)
    (req : WebhookRequest) : Bool :=
  match req.hmacHeader, req.body with
  | some h, some b => if h = "" then false else h == hmac secret b
  | _, _ => false

/-! The order pipeline (`processOrder`, src/index.js lines 552-581) and
the webhook endpoint (src/index.js lines 584-603). -/

/-- A line item of the webhook payload, reduced to the field the source
reads: `item.product_id.toString()`. -/
structure LineItem where
  product_id : String
deriving DecidableEq, Repr

/-- The fields of the parsed webhook payload that the source reads:
`webhookData.id?.toString()` and `webhookData.line_items`. -/
structure WebhookData where
  id : Option String
  line_items : Option (List LineItem)
deriving DecidableEq, Repr

/-- The qualifying product ids `['9805574340930', '9845248131394']`
(src/index.js lines 555, 564). -/
def qualifyingIds : List String :=
  ["9805574340930", "9845248131394"]

/-- The predicate of the `some`/`find` callbacks in `processOrder`:
`['9805574340930', '9845248131394'].includes(item.product_id.toString())`. -/
def isQualifying (item : LineItem) : Bool :=
  qualifyingIds.contains item.product_id

/-- `hasValidProduct` (src/index.js lines 554-556):
`webhookData.line_items?.some(...)`; an absent `line_items` makes the
optional chain `undefined`, hence falsy. -/
def hasValidProduct (w : WebhookData) : Bool :=
  match w.line_items with
  | none => false
  | some items => items.any isQualifying

/-- The side-effecting steps of one pipeline run, in the order they are
attempted: code generation, partner call, store insert, annotation call. -/
inductive Effect where
  | generated (code : String)
  | partnerCall (code : String)
  | storeInsert (orderId code : String)
  | annotateCall (orderId note : String)
deriving DecidableEq, Repr

/-- How one pipeline run ends: `success` (the final log line), `skipped`
(no qualifying product), `failed` (a step rejected and the `catch` block
ran), `diverged` (the generation loop exhausted the supplied draws). -/
inductive PipeOutcome where
  | success
  | skipped
  | failed
  | diverged
deriving DecidableEq, Repr

/-- Outcomes of the external calls a pipeline run makes: the partner
exchange, the store insert (`false` = `insertOne` rejected), and the
annotation exchange. -/
structure Env where
  partnerEv : PartnerEvent
  insertOk : Bool
  annotateEv : HttpEvent
deriving Repr

/-- Result of one `processOrder` run: the trace of attempted
side-effecting steps, the resulting store, and how the run ended. -/
structure PipelineResult where
  trace : List Effect
  store : CodeStore
  outcome : PipeOutcome
deriving DecidableEq, Repr

/-- `processOrder` (src/index.js lines 552-581): skip unless a line item
qualifies; take the first matching item, map its product id to the prefix
(JS string interpolation renders a `null` prefix as `"null"`), generate a
unique code, send it to the partner, insert `{ orderId, code }` into the
store, and annotate the order with `Verification Code: <code>`. Each step
runs only if every earlier step succeeded; the surrounding `try`/`catch`
turns the first rejection into a logged failure with no rollback. -/
def processOrder (env : Env) (draws : List Nat) (store : CodeStore)
    (orderId : String) (w : WebhookData) : PipelineResult :=
  if hasValidProduct w then
    match (w.line_items.getD []).find? isQualifying with
    | none => ⟨[], store, .failed⟩
    | some item =>
      match generateUniqueCode store
          ((getCodePrefix item.product_id).getD "null") draws with
      | none => ⟨[], store, .diverged⟩
      | some code =>
        match sendCodeToComicsLounge env.partnerEv with
        | .error _ => ⟨[.generated code, .partnerCall code], store, .failed⟩
        | .ok _ =>
          if env.insertOk then
            match updateOrderWithNote env.annotateEv with
            | .error _ =>
              ⟨[.generated code, .partnerCall code, .storeInsert orderId code,
                  .annotateCall orderId ("Verification Code: " ++ code)],
                insertOne store ⟨orderId, code⟩, .failed⟩
            | .ok _ =>
              ⟨[.generated code, .partnerCall code, .storeInsert orderId code,
                  .annotateCall orderId ("Verification Code: " ++ code)],
                insertOne store ⟨orderId, code⟩, .success⟩
          else
            ⟨[.generated code, .partnerCall code, .storeInsert orderId code],
              store, .failed⟩
  else ⟨[], store, .skipped⟩

/-- Outcome of `JSON.parse(req.body.toString('utf8'))` in the webhook
handler: a parse exception or the parsed payload. -/
inductive ParseOutcome where
  | parseError
  | parsed (w : WebhookData)
deriving Repr

/-- What the webhook handler produces: the HTTP status sent, whether
`processOrder` was invoked, and (when it was) its result. -/
structure HandlerResult where
  status : Nat
  pipelineInvoked : Bool
  pipe : Option PipelineResult
deriving Repr

/-- The `POST /webhook/orders-create` handler (src/index.js
lines 584-603): `500` when `JSON.parse` throws; `400` and no pipeline
call when `webhookData.id?.toString()` is falsy (absent id, or an empty
string); otherwise it awaits `processOrder` — which catches its own
errors and never throws — and responds `200 OK`. -/
def webhookOrdersCreate (env : Env) (draws : List Nat) (store : CodeStore)
    (p : ParseOutcome) : HandlerResult :=
  match p with
  | .parseError => ⟨500, false, none⟩
  | .parsed w =>
    match w.id with
    | none => ⟨400, false, none⟩
    | some oid =>
      if oid = "" then ⟨400, false, none⟩
      else ⟨200, true, some (processOrder env draws store oid w)⟩

/-- The store after one webhook request (unchanged when the pipeline was
not invoked). -/
def storeAfter (env : Env) (draws : List Nat) (store : CodeStore)
    (p : ParseOutcome) : CodeStore :=
  match (webhookOrdersCreate env draws store p).pipe with
  | some r => r.store
  | none => store

/-- The states of the Code Store reachable from the empty store by
handling webhook requests. -/
inductive Reachable : CodeStore → Prop where
  | init : Reachable []
  | step (env : Env) (draws : List Nat) (p : ParseOutcome) (s : CodeStore) :
      Reachable s → Reachable (storeAfter env draws s p)

/-- No two records of the store share the same `code` value. -/
def uniqueCodes (store : CodeStore) : Prop :=
  (store.map CodeRecord.code).Nodup

instance (store : CodeStore) : Decidable (uniqueCodes store) := by
  unfold uniqueCodes; infer_instance

/-- The regular expression `^[A-Z]\d{8}$` as a Boolean check on the
string's characters. -/
def matchesCodePattern (s : String) : Bool :=
  match s.data with
  | [] => false
  | ch :: rest =>
    decide ('A' ≤ ch) && decide (ch ≤ 'Z') && (rest.length == 8)
      && rest.all Char.isDigit

/-- Recognises the code-generation step in a trace. -/
def isGenerated : Effect → Bool
  | .generated _ => true
  | _ => false

/-- Recognises the partner-notification step in a trace. -/
def isPartnerCall : Effect → Bool
  | .partnerCall _ => true
  | _ => false

/-- Recognises the store-insert step in a trace. -/
def isStoreInsert : Effect → Bool
  | .storeInsert _ _ => true
  | _ => false

/-- Whenever a trace contains both a store insert and a partner call, the
first store insert comes strictly before the first partner call. -/
def persistPrecedesNotify (tr : List Effect) : Bool :=
  match tr.findIdx? isStoreInsert, tr.findIdx? isPartnerCall with
  | some si, some pi => si < pi
  | _, _ => true

/-! Generation lemmas. -/

/-- A code returned by the generation loop was checked against the store:
`findOne` found nothing for it. -/
lemma generateUniqueCode_findOne (store : CodeStore) (pfx : String) :
    ∀ (draws : List Nat) (c : String),
      generateUniqueCode store pfx draws = some c → findOne store c = none := by
  intro draws
  induction draws with
  | nil => intro c h; simp [generateUniqueCode] at h
  | cons seed rest ih =>
    intro c h
    rcases hf : findOne store (pfx ++ toString (randomDraw seed)) with _ | r
    · simp only [generateUniqueCode, hf, Option.some.injEq] at h
      subst h
      exact hf
    · simp only [generateUniqueCode, hf] at h
      exact ih c h

/-- A code returned by the generation loop is the prefix followed by one
of the supplied draws. -/
lemma generateUniqueCode_shape (store : CodeStore) (pfx : String) :
    ∀ (draws : List Nat) (c : String),
      generateUniqueCode store pfx draws = some c →
      ∃ seed ∈ draws, c = pfx ++ toString (randomDraw seed) := by
  intro draws
  induction draws with
  | nil => intro c h; simp [generateUniqueCode] at h
  | cons seed rest ih =>
    intro c h
    rcases hf : findOne store (pfx ++ toString (randomDraw seed)) with _ | r
    · simp only [generateUniqueCode, hf, Option.some.injEq] at h
      exact ⟨seed, by simp, h.symm⟩
    · simp only [generateUniqueCode, hf] at h
      obtain ⟨s, hs, hc⟩ := ih c h
      exact ⟨s, by simp [hs], hc⟩

/-- A colliding draw is simply retried with the remaining draws. -/
lemma generateUniqueCode_collision (store : CodeStore) (pfx : String)
    (seed : Nat) (rest : List Nat)
    (h : findOne store (pfx ++ toString (randomDraw seed)) ≠ none) :
    generateUniqueCode store pfx (seed :: rest) =
      generateUniqueCode store pfx rest := by
  rcases hf : findOne store (pfx ++ toString (randomDraw seed)) with _ | r
  · exact absurd hf h
  · simp only [generateUniqueCode, hf]

/-- The draw is always an 8-digit number. -/
lemma randomDraw_range (seed : Nat) :
    10000000 ≤ randomDraw seed ∧ randomDraw seed ≤ 99999999 := by
  unfold randomDraw
  have := Nat.mod_lt seed (show 0 < 90000000 by norm_num)
  omega

/-! Decimal-rendering lemmas: the characters `Nat.repr` produces for an
8-digit number. -/

/-- Base-10 digit characters are digits. -/
lemma digitChar_mod_isDigit (n : Nat) :
    (Nat.digitChar (n % 10)).isDigit = true := by
  have h : n % 10 < 10 := Nat.mod_lt _ (by norm_num)
  set k := n % 10 with hk
  interval_cases k <;> decide

/-- Every character `Nat.toDigitsCore` emits over base 10 is a digit,
provided the accumulator holds only digits. -/
lemma toDigitsCore_digits (f : Nat) :
    ∀ (n : Nat) (ds : List Char), (∀ c ∈ ds, c.isDigit = true) →
      ∀ c ∈ Nat.toDigitsCore 10 f n ds, c.isDigit = true := by
  induction f with
  | zero => intro n ds hds; simpa [Nat.toDigitsCore] using hds
  | succ f ih =>
    intro n ds hds c hc
    simp only [Nat.toDigitsCore] at hc
    by_cases hz : n / 10 = 0
    · rw [if_pos hz] at hc
      rcases List.mem_cons.mp hc with h | h
      · subst h; exact digitChar_mod_isDigit n
      · exact hds c h
    · rw [if_neg hz] at hc
      refine ih (n / 10) (Nat.digitChar (n % 10) :: ds) ?_ c hc
      intro d hd
      rcases List.mem_cons.mp hd with h | h
      · subst h; exact digitChar_mod_isDigit n
      · exact hds d h

/-- Exact output length of `Nat.toDigitsCore` over base 10: a number with
`k + 1` decimal digits adds `k + 1` characters, given enough fuel. -/
lemma toDigitsCore_length_exact (k : Nat) :
    ∀ (f n : Nat) (ds : List Char), 10 ^ k ≤ n → n < 10 ^ (k + 1) → k < f →
      (Nat.toDigitsCore 10 f n ds).length = (k + 1) + ds.length := by
  induction k with
  | zero =>
    intro f n ds h1 h2 hf
    rcases f with _ | f
    · exact absurd hf (by omega)
    · have hz : n / 10 = 0 := Nat.div_eq_of_lt (by simpa using h2)
      simp only [Nat.toDigitsCore, hz, if_pos, List.length_cons]
      omega
  | succ k ih =>
    intro f n ds h1 h2 hf
    rcases f with _ | f
    · exact absurd hf (by omega)
    · have h10 : (10 : Nat) ≤ n := by
        have : (10 : Nat) ^ 1 ≤ 10 ^ (k + 1) :=
          Nat.pow_le_pow_right (by norm_num) (by omega)
        simpa using le_trans this h1
      have hz : ¬n / 10 = 0 := by
        have : 1 ≤ n / 10 := (Nat.one_le_div_iff (by norm_num)).mpr h10
        omega
      have hlo : 10 ^ k ≤ n / 10 := by
        rw [Nat.le_div_iff_mul_le (by norm_num)]
        calc 10 ^ k * 10 = 10 ^ (k + 1) := (pow_succ 10 k).symm
        _ ≤ n := h1
      have hhi : n / 10 < 10 ^ (k + 1) := by
        rw [Nat.div_lt_iff_lt_mul (by norm_num)]
        calc n < 10 ^ (k + 2) := h2
        _ = 10 ^ (k + 1) * 10 := pow_succ 10 (k + 1)
      simp only [Nat.toDigitsCore]
      rw [if_neg hz]
      rw [ih f (n / 10) (Nat.digitChar (n % 10) :: ds) hlo hhi (by omega)]
      simp only [List.length_cons]
      omega

/-- `toString` on a natural number is `Nat.repr`. -/
lemma natToString_eq_repr (n : Nat) : toString n = Nat.repr n := rfl

/-- The characters of `Nat.repr`. -/
lemma repr_data (n : Nat) : (Nat.repr n).data = Nat.toDigits 10 n := rfl

/-- The decimal rendering of an 8-digit number has exactly eight
characters, all digits. -/
lemma repr_eight_digits (n : Nat) (h1 : 10000000 ≤ n) (h2 : n ≤ 99999999) :
    (toString n).data.length = 8 ∧
      ∀ c ∈ (toString n).data, c.isDigit = true := by
  rw [natToString_eq_repr, repr_data]
  unfold Nat.toDigits
  constructor
  · have := toDigitsCore_length_exact 7 (n + 1) n []
      (by norm_num; omega) (by norm_num; omega) (by omega)
    simpa using this
  · exact toDigitsCore_digits (n + 1) n [] (by simp)

/-- A string starting with one upper-case letter followed by eight digit
characters matches the code pattern. -/
lemma matchesCodePattern_cons (ch : Char) (rest : List Char) (s : String)
    (hdata : s.data = ch :: rest) (h1 : 'A' ≤ ch) (h2 : ch ≤ 'Z')
    (hlen : rest.length = 8) (hdig : ∀ c ∈ rest, c.isDigit = true) :
    matchesCodePattern s = true := by
  unfold matchesCodePattern
  rw [hdata]
  simp [h1, h2, hlen, List.all_eq_true]
  exact hdig

/-! Store lemmas. -/

/-- A `findOne` miss means no record of the store carries the code. -/
lemma findOne_eq_none (store : CodeStore) (c : String)
    (h : findOne store c = none) : ∀ r ∈ store, r.code ≠ c := by
  intro r hr
  unfold findOne at h
  have := List.find?_eq_none.mp h r hr
  simpa using this

/-- Inserting a record whose code misses in `findOne` preserves the
uniqueness of codes. -/
lemma uniqueCodes_insertOne (store : CodeStore) (r : CodeRecord)
    (h : uniqueCodes store) (hn : findOne store r.code = none) :
    uniqueCodes (insertOne store r) := by
  unfold uniqueCodes insertOne
  rw [List.map_append, List.nodup_append]
  refine ⟨h, by simp, ?_⟩
  intro a ha hb
  simp only [List.map_cons, List.map_nil, List.mem_singleton] at hb
  subst hb
  obtain ⟨rec, hrec, hcode⟩ := List.mem_map.mp ha
  exact findOne_eq_none _ _ hn rec hrec hcode

/-- The store after a pipeline run is either unchanged or extended by one
record whose code passed the generation loop's existence check. -/
lemma processOrder_store_cases (env : Env) (draws : List Nat)
    (store : CodeStore) (oid : String) (w : WebhookData) :
    (processOrder env draws store oid w).store = store ∨
    ∃ pfx c, generateUniqueCode store pfx draws = some c ∧
      (processOrder env draws store oid w).store = insertOne store ⟨oid, c⟩ := by
  unfold processOrder
  split
  · split
    · left; rfl
    · split
      · left; rfl
      · rename_i code hgen
        split
        · left; rfl
        · split
          · split
            · right; exact ⟨_, _, hgen, rfl⟩
            · right; exact ⟨_, _, hgen, rfl⟩
          · left; rfl
  · left; rfl

/-- The store is left alone when the body fails to parse. -/
lemma storeAfter_parseError (env : Env) (draws : List Nat)
    (store : CodeStore) : storeAfter env draws store .parseError = store := rfl

/-- The store is left alone when the payload carries no id. -/
lemma storeAfter_noId (env : Env) (draws : List Nat) (store : CodeStore)
    (w : WebhookData) (h : w.id = none) :
    storeAfter env draws store (.parsed w) = store := by
  unfold storeAfter webhookOrdersCreate
  dsimp only
  rw [h]

/-- The store is left alone when the payload's id renders falsy. -/
lemma storeAfter_emptyId (env : Env) (draws : List Nat) (store : CodeStore)
    (w : WebhookData) (h : w.id = some "") :
    storeAfter env draws store (.parsed w) = store := by
  unfold storeAfter webhookOrdersCreate
  dsimp only
  rw [h]
  simp

/-- With a usable id the handler's effect on the store is the
pipeline's. -/
lemma storeAfter_run (env : Env) (draws : List Nat) (store : CodeStore)
    (w : WebhookData) (oid : String) (h : w.id = some oid)
    (hne : ¬oid = "") :
    storeAfter env draws store (.parsed w) =
      (processOrder env draws store oid w).store := by
  unfold storeAfter webhookOrdersCreate
  dsimp only
  rw [h]
  simp [hne]

/-- Handling one webhook request preserves the uniqueness of codes. -/
lemma uniqueCodes_storeAfter (env : Env) (draws : List Nat)
    (store : CodeStore) (p : ParseOutcome) (h : uniqueCodes store) :
    uniqueCodes (storeAfter env draws store p) := by
  rcases p with _ | w
  · rw [storeAfter_parseError]; exact h
  · rcases hid : w.id with _ | oid
    · rw [storeAfter_noId env draws store w hid]; exact h
    · by_cases he : oid = ""
      · subst he
        rw [storeAfter_emptyId env draws store w hid]; exact h
      · rw [storeAfter_run env draws store w oid hid he]
        rcases processOrder_store_cases env draws store oid w with
          hs | ⟨pfx, c, hgen, hs⟩
        · rw [hs]; exact h
        · rw [hs]
          exact uniqueCodes_insertOne store ⟨oid, c⟩ h
            (generateUniqueCode_findOne store pfx draws c hgen)

/-! Concrete inputs used by witnesses and counterexamples. -/

/-- A GraphQL response whose echoed note is present and non-empty. -/
def demoGoodResponse : GraphQLResponse :=
  ⟨some ⟨some ⟨some ⟨some "gid", some "Verification Code: A10000000"⟩⟩⟩⟩

/-- An environment in which every external call succeeds. -/
def envAllOk : Env := ⟨.response 200 "ok", true, .response demoGoodResponse⟩

/-- An environment in which the annotation call errors at the transport
level while the partner call and the insert succeed. -/
def envAnnotateFail : Env := ⟨.response 200 "ok", true, .transportError⟩

/-- A payload with an id and one qualifying line item. -/
def demoOrder : WebhookData := ⟨some "1001", some [⟨"9805574340930"⟩]⟩

/-- A payload with an id and no qualifying line item. -/
def demoNoMatch : WebhookData := ⟨some "1002", some [⟨"42"⟩]⟩

/-! The claims. -/

/-- C1: every reachable state of the Code Store has pairwise distinct
`code` values; `generateUniqueCode` only returns a code for which the
store's `findOne` existence check returned no record, and it repeats the
draw on every collision. -/
theorem C1_store_codes_unique (s : CodeStore) :
    (Reachable s → uniqueCodes s) ∧
    (∀ pfx draws c, generateUniqueCode s pfx draws = some c →
      findOne s c = none) ∧
    (∀ pfx seed rest,
      findOne s (pfx ++ toString (randomDraw seed)) ≠ none →
      generateUniqueCode s pfx (seed :: rest) =
        generateUniqueCode s pfx rest) := by
  refine ⟨?_, ?_, ?_⟩
  · intro h
    induction h with
    | init => simp [uniqueCodes]
    | step env draws p s _ ih => exact uniqueCodes_storeAfter env draws s p ih
  · intro pfx draws c h
    exact generateUniqueCode_findOne s pfx draws c h
  · intro pfx seed rest h
    exact generateUniqueCode_collision s pfx seed rest h

/-- Witness for C1 at a concrete reachable store and a concrete
collision. -/
theorem C1_store_codes_unique_witness :
    uniqueCodes (storeAfter envAllOk [0] [] (.parsed demoOrder)) ∧
    findOne [] "A10000000" = none ∧
    generateUniqueCode [⟨"1001", "A10000000"⟩] "A" [0, 1] =
      generateUniqueCode [⟨"1001", "A10000000"⟩] "A" [1] :=
  ⟨(C1_store_codes_unique _).1
      (Reachable.step envAllOk [0] (.parsed demoOrder) [] Reachable.init),
    (C1_store_codes_unique []).2.1 "A" [0] "A10000000" (by decide),
    (C1_store_codes_unique [⟨"1001", "A10000000"⟩]).2.2 "A" 0 [1] (by decide)⟩

/-- C2 as frozen is false on the code: at a concrete eligible order with
every external call succeeding, the partner call sits at trace index 1
and the store insert at trace index 2, so the partner is notified before
the code is persisted. -/
theorem C2_counterexample :
    hasValidProduct demoOrder = true ∧
    (processOrder envAllOk [0] [] "1001" demoOrder).trace =
      [.generated "A10000000", .partnerCall "A10000000",
        .storeInsert "1001" "A10000000",
        .annotateCall "1001" "Verification Code: A10000000"] ∧
    persistPrecedesNotify
      (processOrder envAllOk [0] [] "1001" demoOrder).trace = false := by
  refine ⟨by decide, by decide, by decide⟩

/-- C2 (amended): for every eligible order the side-effecting steps run
in the order code generation, then partner notification, then persistence
of the Code Record, then order annotation; the partner is always notified
before the code is persisted. -/
theorem C2_step_order (env : Env) (draws : List Nat) (store : CodeStore)
    (oid : String) (w : WebhookData) (items : List LineItem)
    (item : LineItem) (c : String)
    (hitems : w.line_items = some items)
    (hfind : items.find? isQualifying = some item)
    (hgen : generateUniqueCode store
      ((getCodePrefix item.product_id).getD "null") draws = some c)
    (hp : ∃ b, sendCodeToComicsLounge env.partnerEv = .ok b)
    (hi : env.insertOk = true)
    (ha : ∃ u, updateOrderWithNote env.annotateEv = .ok u) :
    (processOrder env draws store oid w).trace =
      [.generated c, .partnerCall c, .storeInsert oid c,
        .annotateCall oid ("Verification Code: " ++ c)] := by
  obtain ⟨b, hb⟩ := hp
  obtain ⟨u, hu⟩ := ha
  have hv : hasValidProduct w = true := by
    unfold hasValidProduct
    rw [hitems]
    exact List.any_eq_true.mpr
      ⟨item, List.mem_of_find?_eq_some hfind, List.find?_some hfind⟩
  simp only [processOrder, hv, if_true, hitems, Option.getD_some, hfind,
    hgen, hb, hi, hu]

/-- Witness for the amended C2 at a concrete eligible order. -/
theorem C2_step_order_witness :
    (processOrder envAllOk [0] [] "1001" demoOrder).trace =
      [.generated "A10000000", .partnerCall "A10000000",
        .storeInsert "1001" "A10000000",
        .annotateCall "1001" "Verification Code: A10000000"] :=
  C2_step_order envAllOk [0] [] "1001" demoOrder [⟨"9805574340930"⟩]
    ⟨"9805574340930"⟩ "A10000000" rfl (by decide) (by decide)
    ⟨"ok", rfl⟩ rfl ⟨⟨some ⟨some "gid", some "Verification Code: A10000000"⟩⟩, rfl⟩

/-- C3: when the insert into the Code Store succeeds and the annotation
step then fails, the inserted Code Record stays in the store (no rollback
or compensating delete), the run ends as a caught failure, and no step
beyond the failed annotation is attempted. -/
theorem C3_no_rollback (env : Env) (draws : List Nat) (store : CodeStore)
    (oid : String) (w : WebhookData) (items : List LineItem)
    (item : LineItem) (c : String)
    (hitems : w.line_items = some items)
    (hfind : items.find? isQualifying = some item)
    (hgen : generateUniqueCode store
      ((getCodePrefix item.product_id).getD "null") draws = some c)
    (hp : ∃ b, sendCodeToComicsLounge env.partnerEv = .ok b)
    (hi : env.insertOk = true)
    (ha : ∃ e, updateOrderWithNote env.annotateEv = .error e) :
    (processOrder env draws store oid w).store = insertOne store ⟨oid, c⟩ ∧
    ⟨oid, c⟩ ∈ (processOrder env draws store oid w).store ∧
    (processOrder env draws store oid w).outcome = .failed ∧
    (processOrder env draws store oid w).trace =
      [.generated c, .partnerCall c, .storeInsert oid c,
        .annotateCall oid ("Verification Code: " ++ c)] := by
  obtain ⟨b, hb⟩ := hp
  obtain ⟨e, he⟩ := ha
  have hv : hasValidProduct w = true := by
    unfold hasValidProduct
    rw [hitems]
    exact List.any_eq_true.mpr
      ⟨item, List.mem_of_find?_eq_some hfind, List.find?_some hfind⟩
  simp only [processOrder, hv, if_true, hitems, Option.getD_some, hfind,
    hgen, hb, hi, he]
  simp [insertOne]

/-- Witness for C3: concrete run with a transport error on annotation. -/
theorem C3_no_rollback_witness :
    (processOrder envAnnotateFail [0] [] "1001" demoOrder).store =
      insertOne [] ⟨"1001", "A10000000"⟩ ∧
    (processOrder envAnnotateFail [0] [] "1001" demoOrder).outcome =
      .failed :=
  have h := C3_no_rollback envAnnotateFail [0] [] "1001" demoOrder
    [⟨"9805574340930"⟩] ⟨"9805574340930"⟩ "A10000000" rfl (by decide)
    (by decide) ⟨"ok", rfl⟩ rfl ⟨"request error", rfl⟩
  ⟨h.1, h.2.2.1⟩

/-- C4: a payload with a usable order id but no qualifying line item is
skipped with no step attempted (empty trace: no store write, no partner
call, no annotation call), the store unchanged, and a 200 response. -/
theorem C4_skip_no_effects (env : Env) (draws : List Nat)
    (store : CodeStore) (w : WebhookData) (oid : String)
    (hid : w.id = some oid) (hne : oid ≠ "")
    (h : hasValidProduct w = false) :
    webhookOrdersCreate env draws store (.parsed w) =
      ⟨200, true, some ⟨[], store, .skipped⟩⟩ := by
  have hp : processOrder env draws store oid w = ⟨[], store, .skipped⟩ := by
    unfold processOrder
    rw [h]
    simp
  unfold webhookOrdersCreate
  dsimp only
  rw [hid]
  dsimp only
  rw [if_neg hne, hp]

/-- Witness for C4 at a concrete non-qualifying payload. -/
theorem C4_skip_no_effects_witness :
    webhookOrdersCreate envAllOk [0] [] (.parsed demoNoMatch) =
      ⟨200, true, some ⟨[], [], .skipped⟩⟩ :=
  C4_skip_no_effects envAllOk [0] [] demoNoMatch "1002" rfl (by decide)
    (by decide)

/-- C5: the endpoint answers 500 when the body fails to parse (the
handler's unexpected error), 400 with the pipeline never invoked when the
payload's order id is absent (or renders falsy), and 200 when the
pipeline ran to success or to an eligibility skip. -/
theorem C5_status_codes (env : Env) (draws : List Nat)
    (store : CodeStore) :
    (webhookOrdersCreate env draws store .parseError = ⟨500, false, none⟩) ∧
    (∀ w, w.id = none ∨ w.id = some "" →
      webhookOrdersCreate env draws store (.parsed w) =
        ⟨400, false, none⟩) ∧
    (∀ w oid, w.id = some oid → oid ≠ "" →
      ((processOrder env draws store oid w).outcome = .success ∨
        (processOrder env draws store oid w).outcome = .skipped) →
      (webhookOrdersCreate env draws store (.parsed w)).status = 200) := by
  refine ⟨rfl, ?_, ?_⟩
  · intro w h
    unfold webhookOrdersCreate
    dsimp only
    rcases h with h | h
    · rw [h]
    · rw [h]
      simp
  · intro w oid hid hne _
    unfold webhookOrdersCreate
    dsimp only
    rw [hid]
    dsimp only
    rw [if_neg hne]

/-- Witness for C5: a missing id and a successful run, concretely. -/
theorem C5_status_codes_witness :
    webhookOrdersCreate envAllOk [0] [] (.parsed ⟨none, none⟩) =
      ⟨400, false, none⟩ ∧
    (webhookOrdersCreate envAllOk [0] [] (.parsed demoOrder)).status =
      200 :=
  ⟨(C5_status_codes envAllOk [0] []).2.1 ⟨none, none⟩ (Or.inl rfl),
    (C5_status_codes envAllOk [0] []).2.2 demoOrder "1001" rfl (by decide)
      (Or.inl (by decide))⟩

/-- C6: the annotation operation resolves exactly when a response was
received, parsed, and its `data.orderUpdate.order.note` field is present
and non-empty; a transport error, a parse error, or a response without a
non-empty note all reject. -/
theorem C6_annotate_success_iff (ev : HttpEvent) :
    (∃ u, updateOrderWithNote ev = .ok u) ↔
    (∃ r s, ev = .response r ∧ noteField r = some s ∧ s ≠ "") := by
  cases ev with
  | transportError => simp [updateOrderWithNote]
  | parseError => simp [updateOrderWithNote]
  | response r =>
    obtain ⟨d⟩ := r
    cases d with
    | none => simp [updateOrderWithNote, noteField]
    | some dd =>
      obtain ⟨uu⟩ := dd
      cases uu with
      | none => simp [updateOrderWithNote, noteField]
      | some u =>
        obtain ⟨oo⟩ := u
        cases oo with
        | none => simp [updateOrderWithNote, noteField]
        | some o =>
          obtain ⟨oidf, nf⟩ := o
          cases nf with
          | none => simp [updateOrderWithNote, noteField]
          | some s =>
            by_cases hs : s = ""
            · subst hs
              simp [updateOrderWithNote, noteField]
            · simp [updateOrderWithNote, noteField, hs]

/-- C7: every code the generator returns under a prefix produced by
`getCodePrefix` matches `^[A-Z]\d{8}$`: the mapped single letter followed
by an 8-digit integer in `[10000000, 99999999]`. -/
theorem C7_code_format (pid pfx : String) (store : CodeStore)
    (draws : List Nat) (c : String)
    (hp : getCodePrefix pid = some pfx)
    (hg : generateUniqueCode store pfx draws = some c) :
    matchesCodePattern c = true ∧
    ∃ n : Nat, 10000000 ≤ n ∧ n ≤ 99999999 ∧ c = pfx ++ toString n := by
  obtain ⟨seed, _, hc⟩ := generateUniqueCode_shape store pfx draws c hg
  have hrange := randomDraw_range seed
  have hpfx : pfx = "A" ∨ pfx = "B" := by
    unfold getCodePrefix at hp
    split at hp
    · left; exact (Option.some.inj hp).symm
    · split at hp
      · right; exact (Option.some.inj hp).symm
      · exact absurd hp (by simp)
  have hdig := repr_eight_digits (randomDraw seed) hrange.1 hrange.2
  refine ⟨?_, randomDraw seed, hrange.1, hrange.2, hc⟩
  subst hc
  rcases hpfx with h | h <;> subst h
  · refine matchesCodePattern_cons 'A'
      (toString (randomDraw seed)).data _ ?_ (by decide) (by decide)
      hdig.1 hdig.2
    rw [String.data_append]
    rfl
  · refine matchesCodePattern_cons 'B'
      (toString (randomDraw seed)).data _ ?_ (by decide) (by decide)
      hdig.1 hdig.2
    rw [String.data_append]
    rfl

/-- Witness for C7 at a concrete prefix and draw. -/
theorem C7_code_format_witness :
    matchesCodePattern "A10000000" = true :=
  (C7_code_format "9805574340930" "A" [] [0] "A10000000" rfl (by decide)).1

/-- C8: a payload with several qualifying line items still yields exactly
one generated code, and its prefix comes from the first matching line
item in iteration order. -/
theorem C8_single_code_first_match (env : Env) (draws : List Nat)
    (store : CodeStore) (oid : String) (w : WebhookData)
    (items : List LineItem) (item : LineItem) (c : String)
    (hitems : w.line_items = some items)
    (hfind : items.find? isQualifying = some item)
    (hmulti : 2 ≤ (items.filter isQualifying).length)
    (hgen : generateUniqueCode store
      ((getCodePrefix item.product_id).getD "null") draws = some c) :
    (processOrder env draws store oid w).trace.filter isGenerated =
      [.generated c] ∧
    ∃ pfx, getCodePrefix item.product_id = some pfx ∧
      ∃ n : Nat, c = pfx ++ toString n := by
  have hv : hasValidProduct w = true := by
    unfold hasValidProduct
    rw [hitems]
    exact List.any_eq_true.mpr
      ⟨item, List.mem_of_find?_eq_some hfind, List.find?_some hfind⟩
  have hq : isQualifying item = true := List.find?_some hfind
  have hpfx : ∃ pfx, getCodePrefix item.product_id = some pfx := by
    simp [isQualifying, qualifyingIds] at hq
    rcases hq with h | h
    · exact ⟨"A", by simp [getCodePrefix, h]⟩
    · exact ⟨"B", by simp [getCodePrefix, h]⟩
  obtain ⟨pfx, hpfx⟩ := hpfx
  obtain ⟨seed, _, hc⟩ := generateUniqueCode_shape store _ draws c hgen
  rw [hpfx, Option.getD_some] at hc
  refine ⟨?_, pfx, hpfx, randomDraw seed, hc⟩
  unfold processOrder
  rw [hv, if_pos rfl]
  simp only [hitems, Option.getD_some, hfind, hgen]
  rcases hsc : sendCodeToComicsLounge env.partnerEv with e | b
  · simp [List.filter, isGenerated]
  · by_cases hins : env.insertOk
    · rw [if_pos hins]
      rcases hup : updateOrderWithNote env.annotateEv with e | u
      · simp [List.filter, isGenerated]
      · simp [List.filter, isGenerated]
    · rw [if_neg hins]
      simp [List.filter, isGenerated]

/-- Witness for C8 at a payload with two qualifying items. -/
theorem C8_single_code_first_match_witness :
    List.filter isGenerated
        (processOrder envAllOk [0] [] "1003"
          ⟨some "1003", some [⟨"9845248131394"⟩, ⟨"9805574340930"⟩]⟩).trace =
      [.generated "B10000000"] :=
  (C8_single_code_first_match envAllOk [0] [] "1003"
    ⟨some "1003", some [⟨"9845248131394"⟩, ⟨"9805574340930"⟩]⟩
    [⟨"9845248131394"⟩, ⟨"9805574340930"⟩] ⟨"9845248131394"⟩ "B10000000"
    rfl (by decide) (by decide) (by decide)).1

/-- Verification succeeds exactly when the header is the digest of the
present raw body (digests being non-empty strings). -/
lemma verifyShopifyWebhook_eq_true_iff (hmac : String → String → String)
    (secret : String) (req : WebhookRequest)
    (hne : ∀ b, hmac secret b ≠ "") :
    verifyShopifyWebhook hmac secret req = true ↔
      ∃ b, req.body = some b ∧ req.hmacHeader = some (hmac secret b) := by
  obtain ⟨hh, hb⟩ := req
  cases hh with
  | none => simp [verifyShopifyWebhook]
  | some h =>
    cases hb with
    | none => simp [verifyShopifyWebhook]
    | some b =>
      by_cases he : h = ""
      · subst he
        have hfalse : verifyShopifyWebhook hmac secret ⟨some "", some b⟩ =
            false := by simp [verifyShopifyWebhook]
        constructor
        · intro hf
          rw [hfalse] at hf
          exact absurd hf (by decide)
        · rintro ⟨b', hb', hh'⟩
          simp only [Option.some.injEq] at hh'
          exact absurd hh'.symm (hne b')
      · simp only [verifyShopifyWebhook, if_neg he]
        constructor
        · intro heq
          exact ⟨b, rfl, congrArg some (beq_iff_eq.mp heq)⟩
        · rintro ⟨b', hb', hh'⟩
          simp only [Option.some.injEq] at hb' hh'
          subst hb'
          exact beq_iff_eq.mpr hh'

/-- Verification fails when the header or the body is absent. -/
lemma verifyShopifyWebhook_missing (hmac : String → String → String)
    (secret : String) (req : WebhookRequest)
    (h : req.hmacHeader = none ∨ req.body = none) :
    verifyShopifyWebhook hmac secret req = false := by
  obtain ⟨hh, hb⟩ := req
  cases hh with
  | none => cases hb <;> rfl
  | some h1 =>
    cases hb with
    | none => rfl
    | some b => rcases h with h | h <;> simp at h

/-- C9: signature verification succeeds exactly when both header and raw
body are present and the header equals the base64 HMAC-SHA256 of the
exact raw body under the shared secret; a missing header or body fails,
a body differing from the signed one (distinct digest) fails, and the
signed body itself passes. -/
theorem C9_verify_iff (hmac : String → String → String) (secret : String)
    (req : WebhookRequest) (hne : ∀ b, hmac secret b ≠ "") :
    (verifyShopifyWebhook hmac secret req = true ↔
      ∃ b, req.body = some b ∧ req.hmacHeader = some (hmac secret b)) ∧
    (req.hmacHeader = none ∨ req.body = none →
      verifyShopifyWebhook hmac secret req = false) ∧
    (∀ b b', req.hmacHeader = some (hmac secret b) → req.body = some b' →
      hmac secret b ≠ hmac secret b' →
      verifyShopifyWebhook hmac secret req = false) ∧
    (∀ b, req.hmacHeader = some (hmac secret b) → req.body = some b →
      verifyShopifyWebhook hmac secret req = true) := by
  refine ⟨verifyShopifyWebhook_eq_true_iff hmac secret req hne,
    verifyShopifyWebhook_missing hmac secret req, ?_, ?_⟩
  · intro b b' hh' hb' hd
    cases hfin : verifyShopifyWebhook hmac secret req with
    | false => rfl
    | true =>
      obtain ⟨b0, hb0, hh0⟩ :=
        (verifyShopifyWebhook_eq_true_iff hmac secret req hne).mp hfin
      rw [hb'] at hb0
      obtain rfl := Option.some.inj hb0
      rw [hh'] at hh0
      exact absurd (Option.some.inj hh0) hd
  · intro b hh' hb'
    exact (verifyShopifyWebhook_eq_true_iff hmac secret req hne).mpr
      ⟨b, hb', hh'⟩

/-- Witness for C9 with a concrete (toy) HMAC function: the signed pair
passes and a one-byte alteration fails. -/
theorem C9_verify_iff_witness :
    verifyShopifyWebhook (fun s b => "mac:" ++ s ++ ":" ++ b) "secret"
      ⟨some ("mac:" ++ "secret" ++ ":" ++ "payload"), some "payload"⟩ = true ∧
    verifyShopifyWebhook (fun s b => "mac:" ++ s ++ ":" ++ b) "secret"
      ⟨some ("mac:" ++ "secret" ++ ":" ++ "payload"), some "payloae"⟩ = false :=
  have hne : ∀ b, (fun s b => "mac:" ++ s ++ ":" ++ b) "secret" b ≠ "" := by
    intro b h
    have h2 := congrArg String.length h
    rw [String.length_append, String.length_append,
      String.length_append] at h2
    have hm : ("mac:" : String).length = 4 := by decide
    have hs : ("secret" : String).length = 6 := by decide
    have hc : (":" : String).length = 1 := by decide
    have hz : ("" : String).length = 0 := by decide
    omega
  ⟨(C9_verify_iff (fun s b => "mac:" ++ s ++ ":" ++ b) "secret"
      ⟨some ("mac:" ++ "secret" ++ ":" ++ "payload"), some "payload"⟩ hne).2.2.2
      "payload" rfl rfl,
    (C9_verify_iff (fun s b => "mac:" ++ s ++ ":" ++ b) "secret"
      ⟨some ("mac:" ++ "secret" ++ ":" ++ "payload"), some "payloae"⟩ hne).2.2.1
      "payload" "payloae" rfl rfl (by decide)⟩

/-- C10: the partner notifier resolves with the raw body for any received
HTTP response — the status code and body are never inspected — and
rejects exactly on a connection-level request error. -/
theorem C10_partner_any_response_ok :
    (∀ status body,
      sendCodeToComicsLounge (.response status body) = .ok body) ∧
    (∀ ev : PartnerEvent,
      (∃ e, sendCodeToComicsLounge ev = .error e) ↔ ev = .requestError) := by
  constructor
  · intro status body; rfl
  · intro ev
    cases ev with
    | requestError => simp [sendCodeToComicsLounge]
    | response s b => simp [sendCodeToComicsLounge]

end ComicsLounge
